import Mathlib

/- Shallow embedding of the computational core of src/src/App.js:
   the Mandelbrot renderer (FractalExplorer), the coin-flip simulator
   (ProbabilitySimulator), the Prisoner Dilemma engine (GameTheory) and
   the rotation timer (TopologyViz). Random draws are passed in as
   explicit Bool arguments; JS numbers are modelled as exact rationals. -/

/-! ## Fractal renderer (App.js lines 10-42) -/

/-- Canvas width attribute (App.js line 52). -/
def canvasWidth : ℕ := 400

/-- Canvas height attribute (App.js line 53). -/
def canvasHeight : ℕ := 400

/-- Real part of the complex sample for pixel column x
    (App.js line 21: cx = (x - width/2) / (width/4) / zoom - 0.5). -/
def pixelCx (zoom : ℚ) (x : ℕ) : ℚ :=
  ((x : ℚ) - (canvasWidth : ℚ) / 2) / ((canvasWidth : ℚ) / 4) / zoom - 0.5

/-- Imaginary part of the complex sample for pixel row y
    (App.js line 22: cy = (y - height/2) / (height/4) / zoom). -/
def pixelCy (zoom : ℚ) (y : ℕ) : ℚ :=
  ((y : ℚ) - (canvasHeight : ℚ) / 2) / ((canvasHeight : ℚ) / 4) / zoom

/-- The while loop of App.js lines 27-32: iterate z ← z² + c from (zx, zy),
    counting steps, stopping when zx² + zy² reaches 4 or the fuel
    (remaining allowed iterations) runs out. -/
def mandelCount (cx cy : ℚ) : ℕ → ℚ → ℚ → ℕ
  | 0, _, _ => 0
  | fuel + 1, zx, zy =>
    if zx * zx + zy * zy < 4 then
      mandelCount cx cy fuel (zx * zx - zy * zy + cx) (2 * zx * zy + cy) + 1
    else 0

/-- Iteration count of a pixel: the loop started at z = 0 with budget
    maxIter, at the complex sample of pixel (x, y). -/
def pixelIter (zoom : ℚ) (maxIter x y : ℕ) : ℕ :=
  mandelCount (pixelCx zoom x) (pixelCy zoom y) maxIter 0 0

/-- App.js line 35: saturation = i < iterations ? 100 : 0. -/
def saturation (i maxIter : ℕ) : ℕ := if i < maxIter then 100 else 0

/-- App.js line 36: lightness = i < iterations ? 50 : 0. -/
def lightness (i maxIter : ℕ) : ℕ := if i < maxIter then 50 else 0

/-! ## Probability simulator (App.js lines 86-112) -/

/-- Local state of ProbabilitySimulator: trials, heads, history. -/
structure ProbState where
  trials : ℕ
  heads : ℕ
  history : List ℚ
deriving DecidableEq

/-- JS Array.prototype.slice with a negative start index -n keeps the
    last n elements (all of them when the array is shorter). -/
def sliceLast (n : ℕ) (l : List ℚ) : List ℚ := l.drop (l.length - n)

/-- runTrial (App.js lines 91-98). The coin draw result is passed in
    explicitly. trials and heads increment; the ratio pushed to history
    is computed from the pre-increment closure values:
    result ? (heads + 1) / (trials + 1) : heads / (trials + 1),
    appended after slice(-50). -/
def runTrial (result : Bool) (s : ProbState) : ProbState :=
  { trials := s.trials + 1
    heads := if result then s.heads + 1 else s.heads
    history := sliceLast 50 s.history ++
      [(if result then (s.heads : ℚ) + 1 else (s.heads : ℚ)) / ((s.trials : ℚ) + 1)] }

/-- reset (App.js lines 106-110): zero trials and heads, clear history. -/
def resetSim (_ : ProbState) : ProbState :=
  { trials := 0, heads := 0, history := [] }

/-- Bar height used when rendering a history value
    (App.js line 141: Math.abs(val - 0.5) * 500). -/
def probBarHeight (val : ℚ) : ℚ := |val - 0.5| * 500

/-! ## Game theory engine (App.js lines 158-262) -/

/-- A move in the Prisoner Dilemma. -/
inductive Move
  | cooperate
  | defect
deriving DecidableEq

/-- The selectable opponent strategies (App.js line 164). -/
inductive Strategy
  | cooperate
  | defect
  | titForTat
  | random
deriving DecidableEq

/-- Local state of GameTheory: last displayed choices, scores, rounds,
    selected strategy, and the remembered last human move. -/
structure Scores where
  you : ℕ
  opponent : ℕ
deriving DecidableEq

structure GameState where
  yourChoice : Option Move
  opponentChoice : Option Move
  scores : Scores
  rounds : ℕ
  opponentStrategy : Strategy
  lastOpponentMove : Option Move
deriving DecidableEq

/-- The switch of App.js lines 171-186 choosing the opponent move; the
    random draw (Math.random() > 0.5) is the Bool argument. The
    tit-for-tat case is lastOpponentMove || cooperate. -/
def oppMoveFor : Strategy → Option Move → Bool → Move
  | Strategy.cooperate, _, _ => Move.cooperate
  | Strategy.defect, _, _ => Move.defect
  | Strategy.titForTat, mem, _ => mem.getD Move.cooperate
  | Strategy.random, _, rnd => if rnd then Move.cooperate else Move.defect

/-- Payoff matrix of App.js lines 197-205, as (yourPoints, oppPoints). -/
def payoff : Move → Move → ℕ × ℕ
  | Move.cooperate, Move.cooperate => (3, 3)
  | Move.cooperate, Move.defect => (0, 5)
  | Move.defect, Move.cooperate => (5, 0)
  | Move.defect, Move.defect => (1, 1)

/-- play (App.js lines 168-211): compute the opponent move, record both
    choices, remember the human choice for tit-for-tat, bump rounds, and
    accumulate the payoff into the scores. -/
def play (choice : Move) (rnd : Bool) (s : GameState) : GameState :=
  let oppMove := oppMoveFor s.opponentStrategy s.lastOpponentMove rnd
  let p := payoff choice oppMove
  { s with
    yourChoice := some choice
    opponentChoice := some oppMove
    lastOpponentMove := some choice
    rounds := s.rounds + 1
    scores := ⟨s.scores.you + p.1, s.scores.opponent + p.2⟩ }

/-- The strategy selector onChange handler (App.js lines 251-256): set
    the new strategy, zero the scores and rounds, clear the memory. The
    displayed choices are not touched. -/
def changeStrategy (newStrat : Strategy) (s : GameState) : GameState :=
  { s with
    opponentStrategy := newStrat
    scores := ⟨0, 0⟩
    rounds := 0
    lastOpponentMove := none }

/-- The initial GameTheory state (App.js lines 159-166): no choices
    displayed, zero scores, zero rounds, tit-for-tat selected, no
    remembered move. -/
def gameStart : GameState :=
  { yourChoice := none
    opponentChoice := none
    scores := ⟨0, 0⟩
    rounds := 0
    opponentStrategy := Strategy.titForTat
    lastOpponentMove := none }

/-- The initial state after selecting the constant cooperate
    strategy. -/
def coopStart : GameState :=
  changeStrategy Strategy.cooperate gameStart

/-! ## Topology rotation timer (App.js lines 272-277) -/

/-- One timer tick: setRotation(r => (r + 1) % 360). -/
def tickRotation (r : ℕ) : ℕ := (r + 1) % 360

/-- Rotation angle after n ticks, starting from the initial state 0. -/
def rotationAfter : ℕ → ℕ
  | 0 => 0
  | n + 1 => tickRotation (rotationAfter n)

/-! ## Helper lemmas -/

/-- The loop performs at most fuel iterations. -/
lemma mandelCount_le_fuel (cx cy : ℚ) :
    ∀ (fuel : ℕ) (zx zy : ℚ), mandelCount cx cy fuel zx zy ≤ fuel := by
  intro fuel
  induction fuel with
  | zero => intro zx zy; simp [mandelCount]
  | succ n ih =>
    intro zx zy
    rw [mandelCount]
    by_cases h : zx * zx + zy * zy < 4
    · rw [if_pos h]
      exact Nat.succ_le_succ (ih _ _)
    · rw [if_neg h]
      exact Nat.zero_le _

/-- For c = (-1/2, 0), the loop never escapes: starting anywhere with
    zy = 0 and zx in [-1/2, 0] it consumes all its fuel, because
    zx² - 1/2 stays in [-1/2, 0] and zy stays 0. -/
lemma mandelCount_neg_half : ∀ (fuel : ℕ) (zx : ℚ),
    -(1 / 2) ≤ zx → zx ≤ 0 → mandelCount (-(1 / 2)) 0 fuel zx 0 = fuel := by
  intro fuel
  induction fuel with
  | zero => intro zx _ _; rfl
  | succ n ih =>
    intro zx h1 h2
    have hlt : zx * zx + 0 * 0 < 4 := by nlinarith
    rw [mandelCount, if_pos hlt]
    have hz : 2 * zx * 0 + 0 = 0 := by ring
    rw [hz, ih (zx * zx - 0 * 0 + -(1 / 2)) (by nlinarith) (by nlinarith)]

/-- The rotation angle after n ticks is n mod 360. -/
lemma rotationAfter_eq_mod (n : ℕ) : rotationAfter n = n % 360 := by
  induction n with
  | zero => rfl
  | succ m ih =>
    rw [rotationAfter, tickRotation, ih]
    omega

/-! ## Claim theorems -/

/-- C1: for every zoom and maxIterations and every pixel (x, y) of the
    400x400 raster, the iteration count produced by the Mandelbrot loop
    lies in [0, maxIterations], and the pixel is rendered black (zero
    saturation and lightness) if and only if the count equals
    maxIterations. -/
theorem pixel_count_and_black (zoom : ℚ) (maxIter x y : ℕ)
    (_hz : 1 ≤ zoom) (_hx : x < canvasWidth) (_hy : y < canvasHeight) :
    pixelIter zoom maxIter x y ≤ maxIter ∧
    (saturation (pixelIter zoom maxIter x y) maxIter = 0 ∧
      lightness (pixelIter zoom maxIter x y) maxIter = 0 ↔
      pixelIter zoom maxIter x y = maxIter) := by
  have hle : pixelIter zoom maxIter x y ≤ maxIter := mandelCount_le_fuel _ _ _ _ _
  refine ⟨hle, ?_⟩
  by_cases h : pixelIter zoom maxIter x y < maxIter
  · simp [saturation, lightness, h]
    omega
  · simp [saturation, lightness, h]
    omega

/-- C1 witness: the theorem applied at zoom 1, 10 iterations,
    pixel (0, 0). -/
theorem pixel_count_and_black_witness :
    (1 : ℚ) ≤ 1 ∧ 0 < canvasWidth ∧ 0 < canvasHeight ∧
    (pixelIter 1 10 0 0 ≤ 10 ∧
      (saturation (pixelIter 1 10 0 0) 10 = 0 ∧
        lightness (pixelIter 1 10 0 0) 10 = 0 ↔
        pixelIter 1 10 0 0 = 10)) :=
  ⟨le_refl 1, by decide, by decide,
    pixel_count_and_black 1 10 0 0 (le_refl 1) (by decide) (by decide)⟩

/-- C7: with zoom 1 and maxIterations 50, the center pixel (200, 200)
    maps to the complex sample (-0.5, 0) and is classified
    non-escaping: the count reaches 50, so saturation and lightness are
    both zero. -/
theorem center_pixel_nonescaping :
    pixelCx 1 200 = -(1 / 2) ∧ pixelCy 1 200 = 0 ∧
    pixelIter 1 50 200 200 = 50 ∧
    saturation (pixelIter 1 50 200 200) 50 = 0 ∧
    lightness (pixelIter 1 50 200 200) 50 = 0 := by
  have hcx : pixelCx 1 200 = -(1 / 2) := by
    norm_num [pixelCx, canvasWidth]
  have hcy : pixelCy 1 200 = 0 := by
    norm_num [pixelCy, canvasHeight]
  have hcount : pixelIter 1 50 200 200 = 50 := by
    rw [pixelIter, hcx, hcy]
    exact mandelCount_neg_half 50 0 (by norm_num) (le_refl 0)
  refine ⟨hcx, hcy, hcount, ?_, ?_⟩
  · simp [saturation, hcount]
  · simp [lightness, hcount]

/-- C2: one runTrial call increments trials, increments heads exactly
    when the draw is heads, produces history of length
    min(51, previous length + 1) with the oldest entries dropped when
    the cap is exceeded, and the value pushed is computed from the
    pre-increment state: denominator trials + 1, numerator heads + 1 on
    heads and heads on tails. -/
theorem runTrial_transition (result : Bool) (s : ProbState) :
    (runTrial result s).trials = s.trials + 1 ∧
    (runTrial result s).heads = (if result then s.heads + 1 else s.heads) ∧
    (runTrial result s).history.length = min 51 (s.history.length + 1) ∧
    (runTrial result s).history =
      s.history.drop (s.history.length - 50) ++
        [(if result then (s.heads : ℚ) + 1 else (s.heads : ℚ)) / ((s.trials : ℚ) + 1)] ∧
    (runTrial result s).history.getLast? =
      some ((if result then (s.heads : ℚ) + 1 else (s.heads : ℚ)) / ((s.trials : ℚ) + 1)) := by
  refine ⟨rfl, rfl, ?_, rfl, ?_⟩
  · simp only [runTrial, sliceLast, List.length_append, List.length_drop,
      List.length_cons, List.length_nil]
    omega
  · simp [runTrial]

/-- C8: reset leaves trials = 0, heads = 0 and an empty history,
    whatever the prior state was. -/
theorem reset_spec (s : ProbState) :
    (resetSim s).trials = 0 ∧ (resetSim s).heads = 0 ∧
    (resetSim s).history = [] :=
  ⟨rfl, rfl, rfl⟩

/-- C6 counterexample: from the initial state, a heads trial appends
    the raw running ratio 1 to history, and 1 is not the deviation
    |1 - 0.5| of that ratio from the theoretical probability. -/
theorem runTrial_raw_ratio_cex :
    (runTrial true ⟨0, 0, []⟩).history = [(1 : ℚ)] ∧
    ¬ ((1 : ℚ) = |(1 : ℚ) - 0.5|) := by
  constructor
  · simp [runTrial, sliceLast]
  · norm_num [abs]

/-- C6 amended: every value runTrial appends to history is the raw
    running ratio (pre-increment numerator and denominator); the
    deviation from 0.5 is only derived from the stored value at
    rendering time, as the bar height |val - 0.5| * 500. -/
theorem runTrial_pushes_raw_ratio (result : Bool) (s : ProbState) :
    (runTrial result s).history.getLast? =
      some ((if result then (s.heads : ℚ) + 1 else (s.heads : ℚ)) / ((s.trials : ℚ) + 1)) ∧
    ∀ v : ℚ, probBarHeight v = |v - 0.5| * 500 := by
  refine ⟨?_, fun v => rfl⟩
  simp [runTrial]

/-- C3: with the tit-for-tat strategy, the opponent move in the round
    after a play equals the human move of that play, and in a round
    with no remembered prior human move the opponent cooperates. -/
theorem play_titForTat_spec (s : GameState) (c1 c2 : Move) (r1 r2 : Bool)
    (hstrat : s.opponentStrategy = Strategy.titForTat) :
    (play c2 r2 (play c1 r1 s)).opponentChoice = some c1 ∧
    (s.lastOpponentMove = none →
      (play c1 r1 s).opponentChoice = some Move.cooperate) := by
  constructor
  · simp [play, oppMoveFor, hstrat]
  · intro hmem
    simp [play, oppMoveFor, hstrat, hmem]

/-- C3 witness: the theorem at the initial tit-for-tat state, first
    playing defect then cooperate. -/
theorem play_titForTat_witness :
    gameStart.opponentStrategy = Strategy.titForTat ∧
    gameStart.lastOpponentMove = none ∧
    ((play Move.cooperate true (play Move.defect true gameStart)).opponentChoice =
        some Move.defect ∧
      (gameStart.lastOpponentMove = none →
        (play Move.defect true gameStart).opponentChoice = some Move.cooperate)) :=
  ⟨by decide, by decide,
    play_titForTat_spec gameStart Move.defect Move.cooperate true true (by decide)⟩

/-- C4: changing the opponent strategy zeroes both scores, zeroes the
    round counter and clears the remembered last human move. -/
theorem changeStrategy_resets (newStrat : Strategy) (s : GameState) :
    (changeStrategy newStrat s).scores = ⟨0, 0⟩ ∧
    (changeStrategy newStrat s).rounds = 0 ∧
    (changeStrategy newStrat s).lastOpponentMove = none ∧
    (changeStrategy newStrat s).opponentStrategy = newStrat :=
  ⟨rfl, rfl, rfl, rfl⟩

/-- C5: against the constant-cooperate strategy, playing cooperate adds
    3 points to each score and playing defect adds 5 to the human score
    and 0 to the opponent score. -/
theorem play_vs_cooperate (s : GameState) (r1 r2 : Bool)
    (hstrat : s.opponentStrategy = Strategy.cooperate) :
    (play Move.cooperate r1 s).scores =
      ⟨s.scores.you + 3, s.scores.opponent + 3⟩ ∧
    (play Move.defect r2 s).scores =
      ⟨s.scores.you + 5, s.scores.opponent + 0⟩ := by
  constructor
  · simp [play, oppMoveFor, hstrat, payoff]
  · simp [play, oppMoveFor, hstrat, payoff]

/-- C5 witness: the theorem at a fresh state whose opponent strategy is
    constant cooperate. -/
theorem play_vs_cooperate_witness :
    coopStart.opponentStrategy = Strategy.cooperate ∧
    ((play Move.cooperate true coopStart).scores =
        ⟨coopStart.scores.you + 3, coopStart.scores.opponent + 3⟩ ∧
      (play Move.defect true coopStart).scores =
        ⟨coopStart.scores.you + 5, coopStart.scores.opponent + 0⟩) :=
  ⟨by decide, play_vs_cooperate coopStart true true (by decide)⟩

/-- C10: changing the opponent strategy leaves the displayed last-round
    choices untouched: yourChoice and opponentChoice are the frame of
    the reset. -/
theorem changeStrategy_frame (newStrat : Strategy) (s : GameState) :
    (changeStrategy newStrat s).yourChoice = s.yourChoice ∧
    (changeStrategy newStrat s).opponentChoice = s.opponentChoice :=
  ⟨rfl, rfl⟩

/-- C9: starting from 0, each timer tick advances the rotation angle by
    exactly 1 degree modulo 360, and the angle stays in [0, 360). -/
theorem rotation_tick_invariant (n : ℕ) :
    rotationAfter n < 360 ∧
    rotationAfter (n + 1) = (rotationAfter n + 1) % 360 ∧
    rotationAfter n = n % 360 := by
  refine ⟨?_, rfl, rotationAfter_eq_mod n⟩
  rw [rotationAfter_eq_mod n]
  omega
